import Mathlib

/-!
Verification of `lib/changelog.py` (GoLeM changelog extractor).

The script reads one JSON transcript and writes two files: a result-text
file and a changelog file.  We shallowly embed the parsed JSON document
tree (`JVal`), the Python dynamic operations the script uses
(`dict.get`, iteration, `len`, truthiness, the `in` operator, slicing,
`str()` formatting), and the script's `main` as a function from the
argument vector and the parse outcome to the run's observable result
(exit code, contents of each output file if written, whether anything
was printed to the error stream).  Python dynamic errors
(AttributeError / TypeError) are modelled with `Except`: an error that
escapes `main` is an uncaught exception, i.e. a nonzero exit with
whatever files were already written at that point.
-/

/-- A parsed JSON value, as produced by `json.load`.  Numbers are
modelled as integers (no claim depends on float formatting); objects
are insertion-ordered key/value lists with unique keys, matching a
Python dict obtained from JSON. -/
inductive JVal where
  | jnull
  | jbool (b : Bool)
  | jnum (n : Int)
  | jstr (s : String)
  | jarr (xs : List JVal)
  | jobj (fields : List (String × JVal))

/-- The Python dynamic errors the script can raise: `AttributeError`
(calling `.get` on a non-dict) and `TypeError` (iterating a
non-iterable, `len` of an unsized value, `in` on a non-container,
slicing a non-sliceable value, `f.write` of a non-string). -/
inductive PyErr where
  | attributeError
  | typeError

/-- Lookup in a Python dict (first matching key; keys of a dict built
by `json.load` are unique). -/
def dictGet (fields : List (String × JVal)) (k : String) : Option JVal :=
  match fields.find? (fun p => p.1 == k) with
  | some p => some p.2
  | none => none

/-- Python `v.get(k, dflt)`: only dicts have `.get`; the default is
used only when the key is missing (a stored `null` is returned as
`null`). -/
def pyGet (v : JVal) (k : String) (dflt : JVal) : Except PyErr JVal :=
  match v with
  | .jobj fs => .ok ((dictGet fs k).getD dflt)
  | _ => .error .attributeError

/-- Python `v == s` for a string literal `s`: equal exactly when `v`
is the same string; values of any other type compare unequal (no
error). -/
def pyEqStr (v : JVal) (s : String) : Bool :=
  match v with
  | .jstr t => t == s
  | _ => false

/-- Python truthiness: `None`, `False`, `0`, `""`, `[]` and an empty
dict are falsy; everything else is truthy. -/
def pyTruthy : JVal → Bool
  | .jnull => false
  | .jbool b => b
  | .jnum n => n != 0
  | .jstr s => !(s == "")
  | .jarr xs => !xs.isEmpty
  | .jobj fs => !fs.isEmpty

/-- Python `for x in v`: lists yield their elements, strings their
characters (as one-character strings), dicts their keys; `None`,
booleans and numbers raise `TypeError`. -/
def pyIter : JVal → Except PyErr (List JVal)
  | .jarr xs => .ok xs
  | .jstr s => .ok (s.data.map (fun c => JVal.jstr (String.mk [c])))
  | .jobj fs => .ok (fs.map (fun p => JVal.jstr p.1))
  | _ => .error .typeError

/-- Python `len`: characters of a string (Unicode code points),
elements of a list, keys of a dict; `TypeError` otherwise. -/
def pyLen : JVal → Except PyErr Nat
  | .jstr s => .ok s.length
  | .jarr xs => .ok xs.length
  | .jobj fs => .ok fs.length
  | _ => .error .typeError

/-- Substring containment on character lists. -/
def charsContain (needle : List Char) : List Char → Bool
  | [] => needle.isEmpty
  | c :: rest => needle.isPrefixOf (c :: rest) || charsContain needle rest

/-- Python `needle in hay` for two strings: substring containment. -/
def strContains (hay needle : String) : Bool :=
  charsContain needle.data hay.data

/-- Python `w in v` for a string `w`: substring test on a string,
membership by equality on a list, key membership on a dict;
`TypeError` on `None`, booleans and numbers. -/
def pyIn (w : String) (v : JVal) : Except PyErr Bool :=
  match v with
  | .jstr s => .ok (strContains s w)
  | .jarr xs => .ok (xs.any (fun x => pyEqStr x w))
  | .jobj fs => .ok (fs.any (fun p => p.1 == w))
  | _ => .error .typeError

/-- Python `any(w in v for w in ws)`: short-circuiting, the first
membership test may raise before the rest are evaluated. -/
def pyAnyIn (ws : List String) (v : JVal) : Except PyErr Bool :=
  match ws with
  | [] => .ok false
  | w :: rest =>
    match pyIn w v with
    | .error e => .error e
    | .ok true => .ok true
    | .ok false => pyAnyIn rest v

/-- Python `v[:n]`: a string slice keeps the first `n` characters, a
list slice the first `n` elements; any other value raises
`TypeError`. -/
def pySliceTo (n : Nat) (v : JVal) : Except PyErr JVal :=
  match v with
  | .jstr s => .ok (JVal.jstr (String.mk (s.data.take n)))
  | .jarr xs => .ok (JVal.jarr (xs.take n))
  | _ => .error .typeError

mutual
/-- Python `repr` of a JSON value, used by `str()` on containers.
Scalars are exact; for strings inside containers the control-character
and quote escaping of CPython is not reproduced (no claim exercises
it, the embedding only needs a total function). -/
def pyRepr : JVal → String
  | .jnull => "None"
  | .jbool true => "True"
  | .jbool false => "False"
  | .jnum n => toString n
  | .jstr s => "\x27" ++ s ++ "\x27"
  | .jarr xs => "[" ++ pyReprSeq xs ++ "]"
  | .jobj fs => "\x7b" ++ pyReprFields fs ++ "\x7d"

/-- Comma-separated `repr`s of list elements. -/
def pyReprSeq : List JVal → String
  | [] => ""
  | [v] => pyRepr v
  | v :: w :: rest => pyRepr v ++ ", " ++ pyReprSeq (w :: rest)

/-- Comma-separated `repr`s of dict entries. -/
def pyReprFields : List (String × JVal) → String
  | [] => ""
  | [(k, v)] => "\x27" ++ k ++ "\x27: " ++ pyRepr v
  | (k, v) :: f :: rest => "\x27" ++ k ++ "\x27: " ++ pyRepr v ++ ", " ++ pyReprFields (f :: rest)
end

/-- Python `str(v)` as used by f-string interpolation: a string is
itself, scalars print as Python prints them, containers via `repr`. -/
def pyStr : JVal → String
  | .jnull => "None"
  | .jbool true => "True"
  | .jbool false => "False"
  | .jnum n => toString n
  | .jstr s => s
  | .jarr xs => "[" ++ pyReprSeq xs ++ "]"
  | .jobj fs => "\x7b" ++ pyReprFields fs ++ "\x7d"

/-- One content block of an assistant message, i.e. one iteration of
the inner loop of `main`: skip unless `type == "tool_use"`, then
dispatch on `name` (`Edit`, `Write`, `Bash`, `NotebookEdit`, in the
source's order) and build the changelog line, or produce none. -/
def processBlock (block : JVal) : Except PyErr (Option String) :=
  match pyGet block "type" JVal.jnull with
  | .error e => .error e
  | .ok ty =>
    if !pyEqStr ty "tool_use" then .ok none
    else
      match pyGet block "name" (JVal.jstr "") with
      | .error e => .error e
      | .ok tool =>
        match pyGet block "input" (JVal.jobj []) with
        | .error e => .error e
        | .ok inp =>
          if pyEqStr tool "Edit" then
            match pyGet inp "file_path" (JVal.jstr "?") with
            | .error e => .error e
            | .ok fp =>
              match pyGet inp "new_string" (JVal.jstr "") with
              | .error e => .error e
              | .ok nsv =>
                match pyLen nsv with
                | .error e => .error e
                | .ok n => .ok (some ("EDIT " ++ pyStr fp ++ ": " ++ toString n ++ " chars"))
          else if pyEqStr tool "Write" then
            match pyGet inp "file_path" (JVal.jstr "?") with
            | .error e => .error e
            | .ok fp => .ok (some ("WRITE " ++ pyStr fp))
          else if pyEqStr tool "Bash" then
            match pyGet inp "command" (JVal.jstr "") with
            | .error e => .error e
            | .ok cmd =>
              match pyAnyIn ["rm ", "rm -", "rmdir", "unlink"] cmd with
              | .error e => .error e
              | .ok true =>
                match pySliceTo 80 cmd with
                | .error e => .error e
                | .ok t => .ok (some ("DELETE via bash: " ++ pyStr t))
              | .ok false =>
                match pyAnyIn ["mv ", "cp ", "mkdir"] cmd with
                | .error e => .error e
                | .ok true =>
                  match pySliceTo 80 cmd with
                  | .error e => .error e
                  | .ok t => .ok (some ("FS: " ++ pyStr t))
                | .ok false => .ok none
          else if pyEqStr tool "NotebookEdit" then
            match pyGet inp "notebook_path" (JVal.jstr "?") with
            | .error e => .error e
            | .ok p => .ok (some ("NOTEBOOK " ++ pyStr p))
          else .ok none

/-- The inner loop of `main` over the blocks of one message's
`content`, collecting emitted lines in order; the first dynamic error
aborts the whole run. -/
def processBlocks : List JVal → Except PyErr (List String)
  | [] => .ok []
  | b :: rest =>
    match processBlock b with
    | .error e => .error e
    | .ok line =>
      match processBlocks rest with
      | .error e => .error e
      | .ok more => .ok (match line with | some l => l :: more | none => more)

/-- One message of the outer loop of `main`: skipped (contributing no
lines) unless `role == "assistant"`; otherwise its `content`
(defaulting to `[]` only when the key is missing) is iterated. -/
def processMsg (msg : JVal) : Except PyErr (List String) :=
  match pyGet msg "role" JVal.jnull with
  | .error e => .error e
  | .ok role =>
    if !pyEqStr role "assistant" then .ok []
    else
      match pyGet msg "content" (JVal.jarr []) with
      | .error e => .error e
      | .ok cv =>
        match pyIter cv with
        | .error e => .error e
        | .ok blocks => processBlocks blocks

/-- The outer loop of `main` over the messages, concatenating each
message's lines in order. -/
def processMsgs : List JVal → Except PyErr (List String)
  | [] => .ok []
  | m :: rest =>
    match processMsg m with
    | .error e => .error e
    | .ok here =>
      match processMsgs rest with
      | .error e => .error e
      | .ok more => .ok (here ++ more)

/-- The changelog-collection pass of `main`:
`data.get("messages", [])` (default only when the key is missing),
then iteration, then the message loop. -/
def extractChanges (data : JVal) : Except PyErr (List String) :=
  match pyGet data "messages" (JVal.jarr []) with
  | .error e => .error e
  | .ok mv =>
    match pyIter mv with
    | .error e => .error e
    | .ok msgs => processMsgs msgs

/-- The changelog file's content written at the end of `main`: the
sentinel line when nothing was collected, otherwise each line followed
by a newline, in order. -/
def renderChangelog (changes : List String) : String :=
  if changes.isEmpty then "(no file changes)\n"
  else String.join (changes.map (fun c => c ++ "\n"))

/-- Outcome of opening and `json.load`-ing the input file:
`parsed v` on success, `parseFailure` when one of the exceptions the
script catches is raised (`json.JSONDecodeError`, `FileNotFoundError`,
`OSError`). -/
inductive ParsedInput where
  | parseFailure
  | parsed (v : JVal)

/-- Observable result of one run: process exit code, content of each
output file (`none` when the run ended without creating it), and
whether anything was printed to the error stream (the warning line, a
usage line, or an uncaught-exception traceback). -/
structure RunResult where
  exitCode : Nat
  stdoutFile : Option String
  changelogFile : Option String
  errStream : Bool

/-- `main` after a successful parse.  `result = data.get("result", "")
or ""` (an `AttributeError` on a non-dict document aborts before any
file is created); the result file is opened (hence created) and the
value written — writing a truthy non-string raises `TypeError` after
the file was already truncated; then the changelog pass runs, whose
error aborts before the changelog file is opened; finally the
changelog file is written.  An uncaught exception exits with status 1
and a traceback on the error stream. -/
def runParsed (data : JVal) : RunResult :=
  match pyGet data "result" (JVal.jstr "") with
  | .error _ => ⟨1, none, none, true⟩
  | .ok r =>
    match (if pyTruthy r then r else JVal.jstr "") with
    | .jstr s =>
      match extractChanges data with
      | .error _ => ⟨1, some s, none, true⟩
      | .ok changes => ⟨0, some s, some (renderChangelog changes), false⟩
    | _ => ⟨1, some "", none, true⟩

/-- The script's `main` (the name `main` is reserved in Lean, hence `changelogMain`).  `argv` is `sys.argv` (so the script name is
`argv[0]` and "exactly three arguments" means `argv.length = 4`): a
wrong count prints usage to the error stream and exits 1 before any
file is touched; a parse failure prints a warning, writes an empty
result file and the sentinel changelog, and exits 0. -/
def changelogMain (argv : List String) (input : ParsedInput) : RunResult :=
  if argv.length ≠ 4 then ⟨1, none, none, true⟩
  else
    match input with
    | .parseFailure => ⟨0, some "", some "(no file changes)\n", true⟩
    | .parsed data => runParsed data

/-- A `tool_use` block with the given tool name and `input` value. -/
def toolBlock (name : String) (inp : JVal) : JVal :=
  JVal.jobj [("type", JVal.jstr "tool_use"), ("name", JVal.jstr name), ("input", inp)]

/-- A `Bash` tool-use block with the given command string. -/
def bashBlock (c : String) : JVal :=
  toolBlock "Bash" (JVal.jobj [("command", JVal.jstr c)])

/-- A message survives erasure of non-assistant messages when it is
not an object whose `role` differs from `"assistant"` (non-object
messages are kept: they abort the run, so they do affect the
output). -/
def keepMsg (m : JVal) : Bool :=
  match m with
  | .jobj fs => pyEqStr ((dictGet fs "role").getD JVal.jnull) "assistant"
  | _ => true

/-- Evaluating the Bash keyword scan on a string command: the
short-circuit `any` is total there and computes the disjunction of the
substring tests. -/
theorem pyAnyIn_jstr (ws : List String) (s : String) :
    pyAnyIn ws (JVal.jstr s) = Except.ok (ws.any (fun w => strContains s w)) := by
  induction ws with
  | nil => rfl
  | cons w rest ih =>
    simp only [pyAnyIn, pyIn]
    cases h : strContains s w <;> simp [h, ih]

/-- On a `Bash` block carrying a string command, `processBlock`
reduces to the two keyword scans followed by slicing. -/
theorem processBlock_bashBlock (c : String) (b1 b2 : Bool)
    (h1 : pyAnyIn ["rm ", "rm -", "rmdir", "unlink"] (JVal.jstr c) = Except.ok b1)
    (h2 : pyAnyIn ["mv ", "cp ", "mkdir"] (JVal.jstr c) = Except.ok b2) :
    processBlock (bashBlock c) =
      (if b1 then Except.ok (some ("DELETE via bash: " ++ String.mk (c.data.take 80)))
       else if b2 then Except.ok (some ("FS: " ++ String.mk (c.data.take 80)))
       else Except.ok none) := by
  cases b1 <;> cases b2 <;>
    simp [processBlock, bashBlock, toolBlock, pyGet, dictGet, List.find?, pyEqStr,
      h1, h2, pySliceTo, pyStr]

/-- `pyGet` of the `type` key of a tool block. -/
theorem pyGet_toolBlock_type (tname : String) (inp : JVal) (d : JVal) :
    pyGet (toolBlock tname inp) "type" d = Except.ok (JVal.jstr "tool_use") := rfl

/-- `pyGet` of the `name` key of a tool block. -/
theorem pyGet_toolBlock_name (tname : String) (inp : JVal) (d : JVal) :
    pyGet (toolBlock tname inp) "name" d = Except.ok (JVal.jstr tname) := rfl

/-- `pyGet` of the `input` key of a tool block. -/
theorem pyGet_toolBlock_input (tname : String) (inp : JVal) (d : JVal) :
    pyGet (toolBlock tname inp) "input" d = Except.ok inp := rfl

/-- A message that is an object whose `role` value differs from
`"assistant"` is skipped: it contributes no lines and cannot raise. -/
theorem processMsg_nonassistant (fs : List (String × JVal))
    (h : pyEqStr ((dictGet fs "role").getD JVal.jnull) "assistant" = false) :
    processMsg (JVal.jobj fs) = Except.ok [] := by
  simp [processMsg, pyGet, h]

/-- Erasing the skipped (non-assistant object) messages from the list
does not change the outcome of the message loop. -/
theorem processMsgs_filter_keepMsg (ms : List JVal) :
    processMsgs (ms.filter keepMsg) = processMsgs ms := by
  induction ms with
  | nil => rfl
  | cons m rest ih =>
    cases hk : keepMsg m with
    | true => simp [List.filter_cons, hk, processMsgs, ih]
    | false =>
      have hm : processMsg m = Except.ok [] := by
        cases m with
        | jobj fs => exact processMsg_nonassistant fs (by simpa [keepMsg] using hk)
        | jnull => simp [keepMsg] at hk
        | jbool b => simp [keepMsg] at hk
        | jnum n => simp [keepMsg] at hk
        | jstr s => simp [keepMsg] at hk
        | jarr xs => simp [keepMsg] at hk
      cases hR : processMsgs rest <;>
        simp [List.filter_cons, hk, processMsgs, hm, ih, hR]

/-- Claim C2: with exactly three arguments and an input file that
cannot be opened or parsed, the script prints a diagnostic to the
error stream, writes an empty result-text file, writes the changelog
file with exactly the sentinel line followed by a newline, and exits
with status 0. -/
theorem C2_parse_failure_degrades (argv : List String) (h : argv.length = 4) :
    changelogMain argv ParsedInput.parseFailure =
      ⟨0, some "", some "(no file changes)\n", true⟩ := by
  simp [changelogMain, h]

/-- Witness for C2 at a concrete argument vector. -/
theorem C2_parse_failure_degrades_witness :
    changelogMain ["changelog.py", "raw.json", "stdout.txt", "changelog.txt"]
        ParsedInput.parseFailure =
      ⟨0, some "", some "(no file changes)\n", true⟩ :=
  C2_parse_failure_degrades _ rfl

/-- Claim C9: with an argument count other than three, the script
prints a usage message to the error stream, exits with status 1, and
creates neither output file, whatever the input file holds. -/
theorem C9_usage_error (argv : List String) (input : ParsedInput) (h : argv.length ≠ 4) :
    changelogMain argv input = ⟨1, none, none, true⟩ := by
  simp [changelogMain, h]

/-- Witness for C9 at a concrete two-argument invocation. -/
theorem C9_usage_error_witness :
    changelogMain ["changelog.py", "raw.json"] ParsedInput.parseFailure =
      ⟨1, none, none, true⟩ :=
  C9_usage_error _ _ (by decide)

/-- Claim C10: any falsy top-level `result` value (null, false, zero,
the empty string, an empty array or an empty object) is coerced to an
empty result-text file by the `or` in the extraction. -/
theorem C10_falsy_result_empty (argv : List String) (fields : List (String × JVal)) (r : JVal)
    (hargv : argv.length = 4) (hr : dictGet fields "result" = some r)
    (hf : pyTruthy r = false) :
    (changelogMain argv (ParsedInput.parsed (JVal.jobj fields))).stdoutFile = some "" := by
  have h1 : pyGet (JVal.jobj fields) "result" (JVal.jstr "") = Except.ok r := by
    simp [pyGet, hr]
  cases hE : extractChanges (JVal.jobj fields) <;>
    simp [changelogMain, hargv, runParsed, h1, hf, hE]

/-- Witness for C10 at `result = false`, `result = 0`, `result = []`
and `result` an empty object. -/
theorem C10_falsy_result_empty_witness :
    (changelogMain ["changelog.py", "raw.json", "stdout.txt", "changelog.txt"]
        (ParsedInput.parsed (JVal.jobj [("result", JVal.jbool false)]))).stdoutFile = some "" ∧
    (changelogMain ["changelog.py", "raw.json", "stdout.txt", "changelog.txt"]
        (ParsedInput.parsed (JVal.jobj [("result", JVal.jnum 0)]))).stdoutFile = some "" ∧
    (changelogMain ["changelog.py", "raw.json", "stdout.txt", "changelog.txt"]
        (ParsedInput.parsed (JVal.jobj [("result", JVal.jarr [])]))).stdoutFile = some "" ∧
    (changelogMain ["changelog.py", "raw.json", "stdout.txt", "changelog.txt"]
        (ParsedInput.parsed (JVal.jobj [("result", JVal.jobj [])]))).stdoutFile = some "" :=
  ⟨C10_falsy_result_empty _ _ _ rfl rfl rfl,
   C10_falsy_result_empty _ _ _ rfl rfl rfl,
   C10_falsy_result_empty _ _ _ rfl rfl rfl,
   C10_falsy_result_empty _ _ _ rfl rfl rfl⟩

/-- Claim C6: on a parsed top-level object, a string `result` value S
is written to the result-text file verbatim, and an absent or null
`result` yields an empty result-text file. -/
theorem C6_result_extraction (argv : List String) (fields : List (String × JVal)) (S : String)
    (hargv : argv.length = 4) :
    (dictGet fields "result" = some (JVal.jstr S) →
      (changelogMain argv (ParsedInput.parsed (JVal.jobj fields))).stdoutFile = some S) ∧
    (dictGet fields "result" = none →
      (changelogMain argv (ParsedInput.parsed (JVal.jobj fields))).stdoutFile = some "") ∧
    (dictGet fields "result" = some JVal.jnull →
      (changelogMain argv (ParsedInput.parsed (JVal.jobj fields))).stdoutFile = some "") := by
  refine ⟨?_, ?_, ?_⟩
  · intro h
    have h1 : pyGet (JVal.jobj fields) "result" (JVal.jstr "") = Except.ok (JVal.jstr S) := by
      simp [pyGet, h]
    by_cases hS : S = ""
    · subst hS
      cases hE : extractChanges (JVal.jobj fields) <;>
        simp [changelogMain, hargv, runParsed, h1, pyTruthy, hE]
    · cases hE : extractChanges (JVal.jobj fields) <;>
        simp [changelogMain, hargv, runParsed, h1, pyTruthy, hS, hE]
  · intro h
    have h1 : pyGet (JVal.jobj fields) "result" (JVal.jstr "") = Except.ok (JVal.jstr "") := by
      simp [pyGet, h]
    cases hE : extractChanges (JVal.jobj fields) <;>
      simp [changelogMain, hargv, runParsed, h1, pyTruthy, hE]
  · intro h
    have h1 : pyGet (JVal.jobj fields) "result" (JVal.jstr "") = Except.ok JVal.jnull := by
      simp [pyGet, h]
    cases hE : extractChanges (JVal.jobj fields) <;>
      simp [changelogMain, hargv, runParsed, h1, pyTruthy, hE]

/-- Witness for C6: a concrete string result is copied verbatim with
no trailing newline; an absent and a null result give an empty file. -/
theorem C6_result_extraction_witness :
    (changelogMain ["changelog.py", "raw.json", "stdout.txt", "changelog.txt"]
        (ParsedInput.parsed (JVal.jobj [("result", JVal.jstr "hello world")]))).stdoutFile =
      some "hello world" ∧
    (changelogMain ["changelog.py", "raw.json", "stdout.txt", "changelog.txt"]
        (ParsedInput.parsed (JVal.jobj []))).stdoutFile = some "" ∧
    (changelogMain ["changelog.py", "raw.json", "stdout.txt", "changelog.txt"]
        (ParsedInput.parsed (JVal.jobj [("result", JVal.jnull)]))).stdoutFile = some "" :=
  ⟨(C6_result_extraction ["changelog.py", "raw.json", "stdout.txt", "changelog.txt"]
      [("result", JVal.jstr "hello world")] "hello world" rfl).1 rfl,
   (C6_result_extraction ["changelog.py", "raw.json", "stdout.txt", "changelog.txt"]
      [] "" rfl).2.1 rfl,
   (C6_result_extraction ["changelog.py", "raw.json", "stdout.txt", "changelog.txt"]
      [("result", JVal.jnull)] "" rfl).2.2 rfl⟩

/-- Claim C4: for an assistant tool-use block named `Bash` with a
string command, the line is decided by the first matching rule: a
delete keyword gives `DELETE via bash: ` plus the first 80 characters
of the command, else a filesystem keyword gives `FS: ` plus the first
80 characters, else no line; truncation appends nothing and a command
of at most 80 characters passes through unchanged. -/
theorem C4_bash_rules (c : String) :
    (processBlock (bashBlock c) =
      Except.ok
        (if ["rm ", "rm -", "rmdir", "unlink"].any (fun w => strContains c w) then
          some ("DELETE via bash: " ++ String.mk (c.data.take 80))
        else if ["mv ", "cp ", "mkdir"].any (fun w => strContains c w) then
          some ("FS: " ++ String.mk (c.data.take 80))
        else none)) ∧
    (c.length ≤ 80 → String.mk (c.data.take 80) = c) := by
  constructor
  · rw [processBlock_bashBlock c _ _ (pyAnyIn_jstr _ c) (pyAnyIn_jstr _ c)]
    cases h1 : ["rm ", "rm -", "rmdir", "unlink"].any (fun w => strContains c w) <;>
      cases h2 : ["mv ", "cp ", "mkdir"].any (fun w => strContains c w) <;> simp
  · intro hc
    have ht : c.data.take 80 = c.data := List.take_of_length_le hc
    rw [ht]

/-- Witness for C4: a delete command, a move command and an unmatched
command, plus truncation leaving a short command unchanged. -/
theorem C4_bash_rules_witness :
    processBlock (bashBlock "rm -rf /tmp/old") =
      Except.ok (some "DELETE via bash: rm -rf /tmp/old") ∧
    processBlock (bashBlock "mv /tmp/a /tmp/b") = Except.ok (some "FS: mv /tmp/a /tmp/b") ∧
    processBlock (bashBlock "echo hi") = Except.ok none ∧
    String.mk (("rm -rf /tmp/old").data.take 80) = "rm -rf /tmp/old" :=
  ⟨rfl, rfl, rfl, (C4_bash_rules "rm -rf /tmp/old").2 (by decide)⟩

/-- Claim C5: dispatch on the exact tool name: `Edit` emits
`EDIT <file_path>: <N> chars` with N the number of characters (Unicode
scalar values, not bytes, counted by `String.length`) of `new_string`,
with defaults `?` and the empty string; `Write` emits
`WRITE <file_path>` (default `?`); `NotebookEdit` emits
`NOTEBOOK <notebook_path>` (default `?`); a name other than the four
known tools emits nothing, whatever its input. -/
theorem C5_dispatch (tname fp ns np2 : String) :
    processBlock (toolBlock "Edit"
        (JVal.jobj [("file_path", JVal.jstr fp), ("new_string", JVal.jstr ns)])) =
      Except.ok (some ("EDIT " ++ fp ++ ": " ++ toString ns.length ++ " chars")) ∧
    processBlock (toolBlock "Edit" (JVal.jobj [])) = Except.ok (some "EDIT ?: 0 chars") ∧
    processBlock (toolBlock "Write" (JVal.jobj [("file_path", JVal.jstr fp)])) =
      Except.ok (some ("WRITE " ++ fp)) ∧
    processBlock (toolBlock "Write" (JVal.jobj [])) = Except.ok (some "WRITE ?") ∧
    processBlock (toolBlock "NotebookEdit" (JVal.jobj [("notebook_path", JVal.jstr np2)])) =
      Except.ok (some ("NOTEBOOK " ++ np2)) ∧
    processBlock (toolBlock "NotebookEdit" (JVal.jobj [])) = Except.ok (some "NOTEBOOK ?") ∧
    (tname ≠ "Edit" → tname ≠ "Write" → tname ≠ "Bash" → tname ≠ "NotebookEdit" →
      ∀ inp, processBlock (toolBlock tname inp) = Except.ok none) := by
  refine ⟨rfl, rfl, rfl, rfl, rfl, rfl, ?_⟩
  intro h1 h2 h3 h4 inp
  simp [processBlock, pyGet_toolBlock_type, pyGet_toolBlock_name, pyGet_toolBlock_input,
    pyEqStr, h1, h2, h3, h4]

/-- Witness for C5: an `Edit` with a non-ASCII five-character
replacement counts characters rather than bytes, and an unknown tool
name emits nothing. -/
theorem C5_dispatch_witness :
    processBlock (toolBlock "Edit"
        (JVal.jobj [("file_path", JVal.jstr "/tmp/test.py"), ("new_string", JVal.jstr "héllo")])) =
      Except.ok (some "EDIT /tmp/test.py: 5 chars") ∧
    processBlock (toolBlock "Task" JVal.jnull) = Except.ok none := by
  refine ⟨?_, ?_⟩
  · exact (C5_dispatch "Task" "/tmp/test.py" "héllo" "?").1
  · exact (C5_dispatch "Task" "/tmp/test.py" "héllo" "?").2.2.2.2.2.2
      (by decide) (by decide) (by decide) (by decide) JVal.jnull

/-- Claim C3: whenever the run reaches the changelog-writing step (the
document parsed, the result value written without error, the traversal
collected its lines without raising), the changelog file is exactly
the sentinel line plus newline when no line was collected, and
otherwise exactly the collected lines in traversal order, each
terminated by a newline, with no trailing sentinel. -/
theorem C3_changelog_file_content (argv : List String) (data r : JVal) (changes : List String)
    (hargv : argv.length = 4)
    (hr : pyGet data "result" (JVal.jstr "") = Except.ok r)
    (hstr : pyTruthy r = true → ∃ s, r = JVal.jstr s)
    (hc : extractChanges data = Except.ok changes) :
    (changelogMain argv (ParsedInput.parsed data)).changelogFile =
      some (if changes.isEmpty then "(no file changes)\n"
            else String.join (changes.map (fun c => c ++ "\n"))) := by
  cases hT : pyTruthy r with
  | true =>
    obtain ⟨s, rfl⟩ := hstr hT
    simp [changelogMain, hargv, runParsed, hr, hT, hc, renderChangelog]
  | false =>
    simp [changelogMain, hargv, runParsed, hr, hT, hc, renderChangelog]

/-- Witness for C3: a transcript with two recognized tool uses yields
the two lines in traversal order with no sentinel, and a transcript
with no messages yields exactly the sentinel line. -/
theorem C3_changelog_file_content_witness :
    (changelogMain ["changelog.py", "raw.json", "stdout.txt", "changelog.txt"]
        (ParsedInput.parsed (JVal.jobj
          [("result", JVal.jstr "done"),
           ("messages", JVal.jarr [JVal.jobj
             [("role", JVal.jstr "assistant"),
              ("content", JVal.jarr
                [toolBlock "Write" (JVal.jobj [("file_path", JVal.jstr "/tmp/new.py")]),
                 toolBlock "Edit" (JVal.jobj
                   [("file_path", JVal.jstr "a.py"), ("new_string", JVal.jstr "xy")])])]])]))).changelogFile =
      some "WRITE /tmp/new.py\nEDIT a.py: 2 chars\n" ∧
    (changelogMain ["changelog.py", "raw.json", "stdout.txt", "changelog.txt"]
        (ParsedInput.parsed (JVal.jobj [("result", JVal.jstr "done")]))).changelogFile =
      some "(no file changes)\n" := by
  constructor
  · exact C3_changelog_file_content ["changelog.py", "raw.json", "stdout.txt", "changelog.txt"]
      _ (JVal.jstr "done") ["WRITE /tmp/new.py", "EDIT a.py: 2 chars"] rfl rfl
      (fun _ => ⟨"done", rfl⟩) rfl
  · exact C3_changelog_file_content ["changelog.py", "raw.json", "stdout.txt", "changelog.txt"]
      _ (JVal.jstr "done") [] rfl rfl (fun _ => ⟨"done", rfl⟩) rfl

/-- Counterexample to claim C1: the parsed document
`{"messages": null}` has three arguments and a null `messages` value,
yet the run ends with exit status 1 (an uncaught TypeError while
iterating `None`) and the changelog file is never written: a null
`messages` is not traversed as an empty sequence. -/
theorem C1_counterexample :
    (changelogMain ["changelog.py", "raw.json", "stdout.txt", "changelog.txt"]
        (ParsedInput.parsed (JVal.jobj [("messages", JVal.jnull)]))).exitCode = 1 ∧
    (changelogMain ["changelog.py", "raw.json", "stdout.txt", "changelog.txt"]
        (ParsedInput.parsed (JVal.jobj [("messages", JVal.jnull)]))).changelogFile = none :=
  ⟨rfl, rfl⟩

/-- Claim C1 as amended: with exactly three arguments, a parse failure
exits 0 with both files written, and so does every parsed document
whose dynamic types let the pass finish (the `result` lookup succeeds,
a truthy `result` is a string, the traversal raises nothing); a
missing `messages` key is traversed as an empty sequence, but a null
`messages` value raises an uncaught TypeError: the run exits with
status 1 and the changelog file is not written. -/
theorem C1_amended_safe_completion (argv : List String) (data r : JVal) (changes : List String)
    (hargv : argv.length = 4)
    (hr : pyGet data "result" (JVal.jstr "") = Except.ok r)
    (hstr : pyTruthy r = true → ∃ s, r = JVal.jstr s)
    (hc : extractChanges data = Except.ok changes) :
    (changelogMain argv ParsedInput.parseFailure).exitCode = 0 ∧
    ((changelogMain argv ParsedInput.parseFailure).stdoutFile).isSome ∧
    ((changelogMain argv ParsedInput.parseFailure).changelogFile).isSome ∧
    (changelogMain argv (ParsedInput.parsed data)).exitCode = 0 ∧
    ((changelogMain argv (ParsedInput.parsed data)).stdoutFile).isSome ∧
    ((changelogMain argv (ParsedInput.parsed data)).changelogFile).isSome ∧
    (∀ fs, dictGet fs "messages" = none → extractChanges (JVal.jobj fs) = Except.ok []) ∧
    (∀ fs, dictGet fs "messages" = some JVal.jnull →
      (changelogMain argv (ParsedInput.parsed (JVal.jobj fs))).exitCode = 1 ∧
      (changelogMain argv (ParsedInput.parsed (JVal.jobj fs))).changelogFile = none) := by
  have hlast : ∀ fs, dictGet fs "messages" = none →
      extractChanges (JVal.jobj fs) = Except.ok [] := by
    intro fs h
    simp [extractChanges, pyGet, h, pyIter, processMsgs]
  have hcrash : ∀ fs, dictGet fs "messages" = some JVal.jnull →
      (changelogMain argv (ParsedInput.parsed (JVal.jobj fs))).exitCode = 1 ∧
      (changelogMain argv (ParsedInput.parsed (JVal.jobj fs))).changelogFile = none := by
    intro fs hm
    have hx : extractChanges (JVal.jobj fs) = Except.error PyErr.typeError := by
      simp [extractChanges, pyGet, hm, pyIter]
    have hmain : changelogMain argv (ParsedInput.parsed (JVal.jobj fs)) =
        runParsed (JVal.jobj fs) := by
      simp [changelogMain, hargv]
    rw [hmain]
    unfold runParsed
    simp only [pyGet]
    split
    · simp [hx]
    · simp
  have hparsed : (changelogMain argv (ParsedInput.parsed data)).exitCode = 0 ∧
      ((changelogMain argv (ParsedInput.parsed data)).stdoutFile).isSome ∧
      ((changelogMain argv (ParsedInput.parsed data)).changelogFile).isSome := by
    cases hT : pyTruthy r with
    | true =>
      obtain ⟨s, rfl⟩ := hstr hT
      simp [changelogMain, hargv, runParsed, hr, hT, hc]
    | false =>
      simp [changelogMain, hargv, runParsed, hr, hT, hc]
  exact ⟨by simp [changelogMain, hargv], by simp [changelogMain, hargv],
    by simp [changelogMain, hargv], hparsed.1, hparsed.2.1, hparsed.2.2, hlast, hcrash⟩

/-- Witness for the amended C1 at a concrete transcript with an
assistant `ls` command (recognized by no rule) and a string result,
and, for the crash clause, at a document carrying a null `messages`
value. -/
theorem C1_amended_safe_completion_witness :
    (changelogMain ["changelog.py", "in.json", "out.txt", "log.txt"]
        ParsedInput.parseFailure).exitCode = 0 ∧
    (changelogMain ["changelog.py", "in.json", "out.txt", "log.txt"]
        (ParsedInput.parsed (JVal.jobj
          [("result", JVal.jstr "ok"),
           ("messages", JVal.jarr [JVal.jobj
             [("role", JVal.jstr "assistant"),
              ("content", JVal.jarr [bashBlock "ls"])]])]))).exitCode = 0 ∧
    ((changelogMain ["changelog.py", "in.json", "out.txt", "log.txt"]
        (ParsedInput.parsed (JVal.jobj
          [("result", JVal.jstr "ok"),
           ("messages", JVal.jarr [JVal.jobj
             [("role", JVal.jstr "assistant"),
              ("content", JVal.jarr [bashBlock "ls"])]])]))).stdoutFile).isSome ∧
    ((changelogMain ["changelog.py", "in.json", "out.txt", "log.txt"]
        (ParsedInput.parsed (JVal.jobj
          [("result", JVal.jstr "ok"),
           ("messages", JVal.jarr [JVal.jobj
             [("role", JVal.jstr "assistant"),
              ("content", JVal.jarr [bashBlock "ls"])]])]))).changelogFile).isSome ∧
    extractChanges (JVal.jobj [("result", JVal.jstr "ok")]) = Except.ok [] ∧
    (changelogMain ["changelog.py", "in.json", "out.txt", "log.txt"]
        (ParsedInput.parsed (JVal.jobj
          [("result", JVal.jstr "ok"), ("messages", JVal.jnull)]))).exitCode = 1 ∧
    (changelogMain ["changelog.py", "in.json", "out.txt", "log.txt"]
        (ParsedInput.parsed (JVal.jobj
          [("result", JVal.jstr "ok"), ("messages", JVal.jnull)]))).changelogFile = none := by
  have h := C1_amended_safe_completion ["changelog.py", "in.json", "out.txt", "log.txt"]
    (JVal.jobj
      [("result", JVal.jstr "ok"),
       ("messages", JVal.jarr [JVal.jobj
         [("role", JVal.jstr "assistant"),
          ("content", JVal.jarr [bashBlock "ls"])]])])
    (JVal.jstr "ok") [] rfl rfl (fun _ => ⟨"ok", rfl⟩) rfl
  exact ⟨h.1, h.2.2.2.1, h.2.2.2.2.1, h.2.2.2.2.2.1, h.2.2.2.2.2.2.1 _ rfl,
    (h.2.2.2.2.2.2.2 [("result", JVal.jstr "ok"), ("messages", JVal.jnull)] rfl).1,
    (h.2.2.2.2.2.2.2 [("result", JVal.jstr "ok"), ("messages", JVal.jnull)] rfl).2⟩

/-- Counterexample to claim C7: the parsed document
`{"result": true}` makes the run terminate with the result file
written (created empty by opening it before the failing write) but no
changelog file, so a partial state with exactly one output file does
occur. -/
theorem C7_counterexample :
    (changelogMain ["changelog.py", "raw.json", "stdout.txt", "changelog.txt"]
        (ParsedInput.parsed (JVal.jobj [("result", JVal.jbool true)]))).stdoutFile = some "" ∧
    (changelogMain ["changelog.py", "raw.json", "stdout.txt", "changelog.txt"]
        (ParsedInput.parsed (JVal.jobj [("result", JVal.jbool true)]))).changelogFile = none ∧
    (changelogMain ["changelog.py", "raw.json", "stdout.txt", "changelog.txt"]
        (ParsedInput.parsed (JVal.jobj [("result", JVal.jbool true)]))).exitCode = 1 :=
  ⟨rfl, rfl, rfl⟩

/-- Claim C7 as amended: every run that exits 0 has both output files
written; a wrong argument count writes neither; and the changelog file
is never written without the result file — but a document aborting
after the result file was opened leaves the result file alone. -/
theorem C7_amended_file_consistency (argv : List String) (input : ParsedInput) :
    ((changelogMain argv input).exitCode = 0 →
      ((changelogMain argv input).stdoutFile).isSome ∧
      ((changelogMain argv input).changelogFile).isSome) ∧
    (argv.length ≠ 4 →
      (changelogMain argv input).stdoutFile = none ∧
      (changelogMain argv input).changelogFile = none) ∧
    (((changelogMain argv input).changelogFile).isSome →
      ((changelogMain argv input).stdoutFile).isSome) := by
  by_cases hA : argv.length = 4
  · cases input with
    | parseFailure => simp [changelogMain, hA]
    | parsed data =>
      have hm : changelogMain argv (ParsedInput.parsed data) = runParsed data := by
        simp [changelogMain, hA]
      rw [hm]
      unfold runParsed
      split
      · simp [hA]
      · split
        · split <;> simp [hA]
        · simp [hA]
  · simp [changelogMain, hA]

/-- Witness for the amended C7: a degraded parse-failure run has both
files, and a one-argument run has neither. -/
theorem C7_amended_file_consistency_witness :
    ((changelogMain ["changelog.py", "a.json", "b.txt", "c.txt"]
        ParsedInput.parseFailure).stdoutFile).isSome ∧
    ((changelogMain ["changelog.py", "a.json", "b.txt", "c.txt"]
        ParsedInput.parseFailure).changelogFile).isSome ∧
    (changelogMain ["changelog.py"] ParsedInput.parseFailure).stdoutFile = none ∧
    (changelogMain ["changelog.py"] ParsedInput.parseFailure).changelogFile = none :=
  ⟨((C7_amended_file_consistency ["changelog.py", "a.json", "b.txt", "c.txt"]
      ParsedInput.parseFailure).1 rfl).1,
   ((C7_amended_file_consistency ["changelog.py", "a.json", "b.txt", "c.txt"]
      ParsedInput.parseFailure).1 rfl).2,
   ((C7_amended_file_consistency ["changelog.py"] ParsedInput.parseFailure).2.1 (by decide)).1,
   ((C7_amended_file_consistency ["changelog.py"] ParsedInput.parseFailure).2.1 (by decide)).2⟩

/-- Claim C8: the changelog output never depends on messages that are
objects whose `role` differs from `"assistant"`: such messages
contribute no lines whatever tools they carry, and two documents whose
`messages` arrays agree after erasing them (all other fields shared)
yield identical changelog files. -/
theorem C8_nonassistant_invariance (argv : List String) (rest : List (String × JVal))
    (ms1 ms2 : List JVal) (h : ms1.filter keepMsg = ms2.filter keepMsg) :
    (changelogMain argv
        (ParsedInput.parsed (JVal.jobj (("messages", JVal.jarr ms1) :: rest)))).changelogFile =
      (changelogMain argv
        (ParsedInput.parsed (JVal.jobj (("messages", JVal.jarr ms2) :: rest)))).changelogFile ∧
    (∀ fs, pyEqStr ((dictGet fs "role").getD JVal.jnull) "assistant" = false →
      processMsg (JVal.jobj fs) = Except.ok []) := by
  constructor
  · have e1 : extractChanges (JVal.jobj (("messages", JVal.jarr ms1) :: rest)) =
        processMsgs ms1 := rfl
    have e2 : extractChanges (JVal.jobj (("messages", JVal.jarr ms2) :: rest)) =
        processMsgs ms2 := rfl
    have er : pyGet (JVal.jobj (("messages", JVal.jarr ms1) :: rest)) "result" (JVal.jstr "") =
        pyGet (JVal.jobj (("messages", JVal.jarr ms2) :: rest)) "result" (JVal.jstr "") := rfl
    by_cases hA : argv.length = 4
    · have hrp : runParsed (JVal.jobj (("messages", JVal.jarr ms1) :: rest)) =
          runParsed (JVal.jobj (("messages", JVal.jarr ms2) :: rest)) := by
        unfold runParsed
        rw [er, e1, e2, ← processMsgs_filter_keepMsg ms1, ← processMsgs_filter_keepMsg ms2, h]
      simp [changelogMain, hA, hrp]
    · simp [changelogMain, hA]
  · intro fs hfs
    exact processMsg_nonassistant fs hfs

/-- Witness for C8: a transcript holding only a user message with a
`Write` tool use has the same changelog file as the empty transcript,
and that user message is skipped. -/
theorem C8_nonassistant_invariance_witness :
    (changelogMain ["changelog.py", "raw.json", "stdout.txt", "changelog.txt"]
        (ParsedInput.parsed (JVal.jobj [("messages", JVal.jarr
          [JVal.jobj [("role", JVal.jstr "user"),
                      ("content", JVal.jarr
                        [toolBlock "Write" (JVal.jobj
                          [("file_path", JVal.jstr "/etc/passwd")])])]])]))).changelogFile =
      (changelogMain ["changelog.py", "raw.json", "stdout.txt", "changelog.txt"]
        (ParsedInput.parsed (JVal.jobj [("messages", JVal.jarr [])]))).changelogFile ∧
    processMsg (JVal.jobj [("role", JVal.jstr "user")]) = Except.ok [] := by
  have h := C8_nonassistant_invariance ["changelog.py", "raw.json", "stdout.txt", "changelog.txt"]
    []
    [JVal.jobj [("role", JVal.jstr "user"),
                ("content", JVal.jarr
                  [toolBlock "Write" (JVal.jobj [("file_path", JVal.jstr "/etc/passwd")])])]]
    [] rfl
  exact ⟨h.1, h.2 _ rfl⟩
